import Mathlib

/-
Shallow embedding of src/main.py, the AWS ECR Docker image pusher.

The external collaborators of the program (boto3, the base64 library,
subprocess, and the streamlit display) are modelled as environment
records that describe the outcome of each external call made during one
run; the Python control flow of main.py is translated directly.  Every
streamlit display call and every subprocess invocation is recorded in an
effect trace.  Python exceptions are modelled with Except: a function
whose Python body can let an exception escape returns Except.error in
that case, and a function whose handlers catch everything always returns
Except.ok.
-/

/-- Python exception values that can arise in main.py. -/
inductive PyExc where
  | noCredentialsError (msg : String)
  | clientError (msg : String)
  | calledProcessError (returncode : Int) (stderr : String)
  | indexError (msg : String)
  | valueError (msg : String)
  | fileNotFoundError (msg : String)
  | otherError (msg : String)
deriving DecidableEq

/-- Text produced by Python str(e) for a caught exception, used when main.py
interpolates the exception into an error message. -/
def excMessage : PyExc → String
  | .noCredentialsError m => m
  | .clientError m => m
  | .calledProcessError _ s => "Command returned non-zero exit status. " ++ s
  | .indexError m => m
  | .valueError m => m
  | .fileNotFoundError m => m
  | .otherError m => m

/-- One observable effect of a run: a streamlit display call or a
subprocess invocation (the command list handed to subprocess). -/
inductive Effect where
  | stInfo (text : String)
  | stSuccess (text : String)
  | stError (text : String)
  | stCode (text : String)
  | stWarning (text : String)
  | runProc (cmd : List String)
deriving DecidableEq

/-- Fields of a completed subprocess invocation, as captured by
subprocess.run with capture_output. -/
structure ProcResult where
  returncode : Int
  stdout : String
  stderr : String
deriving DecidableEq

/-- Outcome of invoking subprocess.run: either the process ran to
completion, or spawning it raised an exception (for example
FileNotFoundError when the docker binary is absent). -/
inductive RunOutcome where
  | completed (r : ProcResult)
  | spawnError (e : PyExc)
deriving DecidableEq

/-- Semantics of subprocess.run with check set: a non-zero exit status
raises CalledProcessError carrying the captured stderr. -/
def runChecked : RunOutcome → Except PyExc ProcResult
  | .completed r =>
      if r.returncode = 0 then .ok r
      else .error (.calledProcessError r.returncode r.stderr)
  | .spawnError e => .error e

/-- Does this effect invoke the container engine with the given
subcommand (for example "tag" or "push")? -/
def isEngineSub (sub : String) : Effect → Bool
  | .runProc (eng :: c :: _) => eng == "docker" && c == sub
  | _ => false

/-- Does the trace invoke the container engine with the given subcommand? -/
def invokesEngine (tr : List Effect) (sub : String) : Bool :=
  tr.any (isEngineSub sub)

/-- Python str.split with a one-character separator: helper walking the
character list, accumulating the current field in reverse. -/
def pySplitAux (sep : Char) : List Char → List Char → List String
  | [], cur => [String.mk cur.reverse]
  | c :: rest, cur =>
      if c = sep then String.mk cur.reverse :: pySplitAux sep rest []
      else pySplitAux sep rest (c :: cur)

/-- Python str.split with a one-character separator: splits at every
occurrence of the separator, so a string with k separators yields k + 1
fields (possibly empty). -/
def pySplit (sep : Char) (s : String) : List String :=
  pySplitAux sep s.data []

/-- The whitespace characters removed by Python str.strip. -/
def pyIsSpace (c : Char) : Bool :=
  c = ' ' || c = '\t' || c = '\n' || c = '\r' || c = '\x0b' || c = '\x0c'

/-- Python str.strip: removes leading and trailing whitespace. -/
def pyStrip (s : String) : String :=
  String.mk (((s.data.dropWhile pyIsSpace).reverse.dropWhile pyIsSpace).reverse)

/-- Handle for the boto3 ECR client; it carries only the configured
region, since every call made through it is modelled by an environment
outcome. -/
structure EcrClient where
  region_name : String
deriving DecidableEq

/-- Embedding of get_ecr_client (main.py lines 9-28).  The argument is
the outcome of the boto3.client call.  Both except branches return None,
so the function itself never raises. -/
def get_ecr_client (boto3Outcome : Except PyExc EcrClient) :
    Except PyExc (Option EcrClient) × List Effect :=
  match boto3Outcome with
  | .ok c => (.ok (some c), [])
  | .error (.noCredentialsError _) =>
      (.ok none, [.stError ("AWS credentials not found. Please configure them using " ++
        "\x27aws configure\x27 or environment variables.")])
  | .error e =>
      (.ok none, [.stError ("Error creating ECR client: " ++ excMessage e)])

/-- One repository record of a describe_repositories page. -/
structure RepoEntry where
  repositoryName : String
deriving DecidableEq

/-- One page of paginated describe_repositories output. -/
structure Page where
  repositories : List RepoEntry
deriving DecidableEq

/-- The nested loop of get_ecr_repositories (lines 43-45): appends the
repository names of every page, in page order, to the accumulator. -/
def collectRepoNames : List Page → List String → List String
  | [], acc => acc
  | page :: rest, acc =>
      collectRepoNames rest (acc ++ page.repositories.map RepoEntry.repositoryName)

/-- Embedding of get_ecr_repositories (lines 30-52).  The argument is the
outcome of iterating the describe_repositories paginator: either the full
page list or the exception it raised.  Both except branches return None,
so the function itself never raises. -/
def get_ecr_repositories (paginateOutcome : Except PyExc (List Page)) :
    Except PyExc (Option (List String)) × List Effect :=
  match paginateOutcome with
  | .ok pages => (.ok (some (collectRepoNames pages [])), [])
  | .error (.clientError m) =>
      (.ok none, [.stError ("Error fetching ECR repositories: " ++ m ++
        ". Check your credentials and permissions.")])
  | .error e =>
      (.ok none, [.stError ("An unexpected error occurred: " ++ excMessage e)])

/-- One entry of the authorizationData list returned by
get_authorization_token. -/
structure AuthData where
  authorizationToken : String
deriving DecidableEq

/-- Python list indexing xs[0]: IndexError on an empty list. -/
def indexZero : List AuthData → Except PyExc AuthData
  | [] => .error (.indexError "list index out of range")
  | a :: _ => .ok a

/-- Python tuple unpacking of the split result into exactly two names
(line 73): ValueError unless the list has exactly two elements. -/
def unpackTwo : List String → Except PyExc (String × String)
  | [] => .error (.valueError "not enough values to unpack (expected 2, got 0)")
  | [_] => .error (.valueError "not enough values to unpack (expected 2, got 1)")
  | [a, b] => .ok (a, b)
  | _ => .error (.valueError "too many values to unpack (expected 2)")

/-- The registry host string built in ecr_login (line 74). -/
def registry_host (aws_account_id region : String) : String :=
  aws_account_id ++ ".dkr.ecr." ++ region ++ ".amazonaws.com"

/-- Environment for one ecr_login run: the authorizationData list
returned by get_authorization_token (or the exception that call raised),
the behaviour of base64 decoding on the token, and the outcome of the
docker login subprocess as a function of the username, password and
registry passed to it. -/
structure LoginEnv where
  authorizationData : Except PyExc (List AuthData)
  b64decode : String → Except PyExc String
  dockerLoginRun : String → String → String → RunOutcome

/-- The try block of ecr_login (lines 68-92): each step can raise, and
the effects produced before the exception are kept with the outcome. -/
def ecr_login_body (env : LoginEnv) (registry : String) :
    Except PyExc Bool × List Effect :=
  match env.authorizationData with
  | .error e => (.error e, [])
  | .ok authList =>
    match indexZero authList with
    | .error e => (.error e, [])
    | .ok auth =>
      match env.b64decode auth.authorizationToken with
      | .error e => (.error e, [])
      | .ok decoded_token =>
        match unpackTwo (pySplit ':' decoded_token) with
        | .error e => (.error e, [])
        | .ok creds =>
          let command := ["docker", "login", "--username", creds.1,
            "--password", creds.2, registry]
          match runChecked (env.dockerLoginRun creds.1 creds.2 registry) with
          | .error e => (.error e, [.runProc command])
          | .ok result =>
            if result.returncode = 0 then
              (.ok true, [.runProc command, .stSuccess "Docker login successful!"])
            else
              (.ok false, [.runProc command, .stError "Docker login failed.",
                .stCode result.stderr])

/-- Embedding of ecr_login (lines 55-100).  The except branches catch
CalledProcessError (showing its stderr with st.code) and every other
exception, so the function always returns a boolean. -/
def ecr_login (env : LoginEnv) (aws_account_id region : String) :
    Except PyExc Bool × List Effect :=
  let intro := Effect.stInfo "Authenticating Docker with ECR..."
  match ecr_login_body env (registry_host aws_account_id region) with
  | (.ok b, tr) => (.ok b, intro :: tr)
  | (.error (.calledProcessError _ stderr), tr) =>
      (.ok false, intro :: (tr ++ [.stError "Docker login failed.", .stCode stderr]))
  | (.error e, tr) =>
      (.ok false, intro :: (tr ++
        [.stError ("An error occurred during ECR login: " ++ excMessage e)]))

/-- The readline loop of tag_and_push_image (lines 134-138): consumes the
push process output lines in order, accumulating them into logs, and
records each successive value displayed by log_container.code.  Returns
the final logs together with the list of displayed snapshots.  The
iter(readline, sentinel) loop stops at the first empty string, the EOF
sentinel. -/
def readLoop : List String → String → String × List String
  | [], logs => (logs, [])
  | line :: rest, logs =>
      if line = "" then (logs, [])
      else
        let logs2 := logs ++ line
        let next := readLoop rest logs2
        (next.1, logs2 :: next.2)

/-- The spawned docker push process: the lines its combined
stdout/stderr stream produces, in order, and its final exit status. -/
structure PushProcess where
  outputLines : List String
  returncode : Int
deriving DecidableEq

instance {ε α : Type} [DecidableEq ε] [DecidableEq α] : DecidableEq (Except ε α)
  | .ok a, .ok b =>
      if h : a = b then .isTrue (congrArg Except.ok h)
      else .isFalse (fun he => h (Except.ok.inj he))
  | .ok _, .error _ => .isFalse (fun he => Except.noConfusion he)
  | .error _, .ok _ => .isFalse (fun he => Except.noConfusion he)
  | .error a, .error b =>
      if h : a = b then .isTrue (congrArg Except.error h)
      else .isFalse (fun he => h (Except.error.inj he))

/-- Environment for one tag_and_push_image run: the outcome of the docker
tag subprocess and the outcome of spawning the docker push subprocess. -/
structure PushEnv where
  tagRun : RunOutcome
  pushSpawn : Except PyExc PushProcess
deriving DecidableEq

/-- Embedding of tag_and_push_image (lines 102-146).  Only the tag step
is wrapped in try/except, and that except clause catches only
CalledProcessError; any other exception of the tag step, and any
exception of the push phase, escapes to the caller, hence the Except
result type. -/
def tag_and_push_image (env : PushEnv)
    (local_image_tag repository_uri image_tag : String) :
    Except PyExc Bool × List Effect :=
  let ecr_image_uri := repository_uri ++ ":" ++ image_tag
  let introTag := Effect.stInfo ("Tagging local image \x27" ++ local_image_tag ++
    "\x27 as \x27" ++ ecr_image_uri ++ "\x27...")
  let tag_command := ["docker", "tag", local_image_tag, ecr_image_uri]
  match runChecked env.tagRun with
  | .error (.calledProcessError _ stderr) =>
      (.ok false, [introTag, .runProc tag_command,
        .stError "Failed to tag Docker image. Make sure the local image exists.",
        .stCode stderr])
  | .error e => (.error e, [introTag, .runProc tag_command])
  | .ok _ =>
      let push_command := ["docker", "push", ecr_image_uri]
      let afterTag := [introTag, Effect.runProc tag_command,
        Effect.stSuccess "Image tagged successfully.",
        Effect.stInfo ("Pushing image to ECR repository: " ++ ecr_image_uri)]
      match env.pushSpawn with
      | .error e => (.error e, afterTag ++ [.runProc push_command])
      | .ok proc =>
          let drained := readLoop proc.outputLines ""
          let logsShown := drained.2.map Effect.stCode
          if proc.returncode = 0 then
            (.ok true, afterTag ++ [.runProc push_command] ++ logsShown ++
              [.stSuccess "Image pushed successfully to ECR!"])
          else
            (.ok false, afterTag ++ [.runProc push_command] ++ logsShown ++
              [.stError "Failed to push image to ECR."])

/-- The repository URI built by the Push to ECR button handler
(line 203). -/
def repository_uri (account_id region selected_repo : String) : String :=
  account_id ++ ".dkr.ecr." ++ region ++ ".amazonaws.com/" ++ selected_repo

/-- Environment for one click of the Push to ECR button. -/
structure PushClickEnv where
  loginEnv : LoginEnv
  pushEnv : PushEnv

/-- Embedding of the Push to ECR button handler (lines 198-206).  The
account_id and region arguments are the already stripped values of
lines 195-196; the truthiness test of the Python all call is modelled as
non-emptiness of the strings.  local_image and new_image_tag are
stripped at the call on line 204, as in the source. -/
def push_button_handler (env : PushClickEnv)
    (selected_repo local_image new_image_tag account_id region : String) :
    Except PyExc Unit × List Effect :=
  if selected_repo ≠ "" ∧ local_image ≠ "" ∧ new_image_tag ≠ "" ∧ account_id ≠ "" then
    match ecr_login env.loginEnv account_id region with
    | (.error e, tr) => (.error e, tr)
    | (.ok login_success, tr) =>
      if login_success then
        let pushed := tag_and_push_image env.pushEnv (pyStrip local_image)
          (repository_uri account_id region selected_repo) (pyStrip new_image_tag)
        (pushed.1.map (fun _ => ()), tr ++ pushed.2)
      else
        (.ok (), tr)
  else
    (.ok (), [.stWarning "Please fill in all the repository and image details."])

/-- Concatenation of the lines a process emitted, in order. -/
def joinLines : List String → String
  | [] => ""
  | l :: rest => l ++ joinLines rest

/-- The snapshot sequence the spec requires of the drain loop: the k-th
displayed value is the concatenation of the first k + 1 emitted lines,
so each snapshot extends the previous one by exactly the next emitted
line and no reordering is possible. -/
def snapshotsSpec (lines : List String) : List String :=
  (List.range lines.length).map (fun k => joinLines (lines.take (k + 1)))

/-
Helper lemmas shared by the claim theorems.
-/

theorem collectRepoNames_eq (pages : List Page) (acc : List String) :
    collectRepoNames pages acc =
      acc ++ (pages.map (fun p => p.repositories.map RepoEntry.repositoryName)).flatten := by
  induction pages generalizing acc with
  | nil => simp [collectRepoNames]
  | cons page rest ih => simp [collectRepoNames, ih]

theorem readLoop_fst (lines : List String) (h : ∀ l ∈ lines, l ≠ "") (logs : String) :
    (readLoop lines logs).1 = logs ++ joinLines lines := by
  induction lines generalizing logs with
  | nil => simp [readLoop, joinLines, String.append_empty]
  | cons line rest ih =>
    have hline : line ≠ "" := h line (List.mem_cons_self _ _)
    have hrest : ∀ l ∈ rest, l ≠ "" := fun l hl => h l (List.mem_cons_of_mem _ hl)
    simp only [readLoop, if_neg hline]
    rw [ih hrest]
    simp [joinLines, String.append_assoc]

theorem readLoop_snd (lines : List String) (h : ∀ l ∈ lines, l ≠ "") (logs : String) :
    (readLoop lines logs).2 =
      (List.range lines.length).map (fun k => logs ++ joinLines (lines.take (k + 1))) := by
  induction lines generalizing logs with
  | nil => simp [readLoop]
  | cons line rest ih =>
    have hline : line ≠ "" := h line (List.mem_cons_self _ _)
    have hrest : ∀ l ∈ rest, l ≠ "" := fun l hl => h l (List.mem_cons_of_mem _ hl)
    simp only [readLoop, if_neg hline]
    rw [ih hrest, List.length_cons, List.range_succ_eq_map, List.map_cons, List.map_map]
    congr 1
    · simp [joinLines, String.append_empty]
    · apply List.map_congr_left
      intro k _
      simp [Function.comp, List.take_succ_cons, joinLines, String.append_assoc]

/-
Claim theorems.
-/

/-- Claim C4: get_ecr_repositories returns the concatenation of the
repository names of all pages, in server-provided order with no
re-sorting, and zero pages yield the empty list rather than a failure. -/
theorem c4_repositories_concat_all_pages (pages : List Page) :
    (get_ecr_repositories (.ok pages)).1 =
      .ok (some ((pages.map (fun p => p.repositories.map RepoEntry.repositoryName)).flatten)) ∧
    get_ecr_repositories (.ok ([] : List Page)) = (.ok (some []), []) := by
  constructor
  · simp [get_ecr_repositories, collectRepoNames_eq]
  · rfl

/-- Claim C8: ecr_login uses exactly the first entry of the
authorizationData list; any further entries do not change its result. -/
theorem c8_first_auth_entry_only (env : LoginEnv) (a : AuthData) (rest : List AuthData)
    (acct region : String) :
    ecr_login { env with authorizationData := .ok (a :: rest) } acct region =
      ecr_login { env with authorizationData := .ok [a] } acct region := rfl

/-- Claim C7: draining the push process output consumes exactly the
lines the process emitted, in the exact order emitted: the final log is
their concatenation in order, and the k-th displayed snapshot is the
concatenation of the first k + 1 lines, so each snapshot extends the
previous one by exactly the next emitted line.  The loop is a total
function of the finite emitted-line list, so the sequence is finite and
ends when the process output does. -/
theorem c7_drain_preserves_line_order (lines : List String)
    (h : ∀ l ∈ lines, l ≠ "") :
    (readLoop lines "").1 = joinLines lines ∧
    (readLoop lines "").2 = snapshotsSpec lines := by
  constructor
  · rw [readLoop_fst lines h, String.empty_append]
  · rw [readLoop_snd lines h, snapshotsSpec]
    apply List.map_congr_left
    intro k _
    rw [String.empty_append]

/-- Witness for C7 at a concrete two-line push transcript. -/
theorem c7_drain_preserves_line_order_witness :
    (∀ l ∈ ["5c7ff: Pushed\n", "latest: digest: sha256\n"], l ≠ ("" : String)) ∧
    ((readLoop ["5c7ff: Pushed\n", "latest: digest: sha256\n"] "").1 =
        joinLines ["5c7ff: Pushed\n", "latest: digest: sha256\n"] ∧
      (readLoop ["5c7ff: Pushed\n", "latest: digest: sha256\n"] "").2 =
        snapshotsSpec ["5c7ff: Pushed\n", "latest: digest: sha256\n"]) :=
  ⟨by decide, c7_drain_preserves_line_order _ (by decide)⟩

/-- A login environment whose authorization token decodes to a
credential whose password contains colons: base64 of user:pa:ss, so the
decoded username is user and the decoded password is pa:ss.  The docker
login subprocess would succeed if it were ever invoked. -/
def c1env : LoginEnv where
  authorizationData := .ok [⟨"dXNlcjpwYTpzcw=="⟩]
  b64decode := fun t =>
    if t = "dXNlcjpwYTpzcw==" then .ok "user:pa:ss"
    else .error (.valueError "Invalid base64-encoded string")
  dockerLoginRun := fun _ _ _ => .completed ⟨0, "Login Succeeded", ""⟩

/-- Claim C1 is violated by the code: line 73 splits the decoded token
at every colon, not only the first, so a password containing colons
makes the tuple unpacking raise ValueError, the generic handler returns
False, and docker login is never invoked — login fails instead of
proceeding with username user and password pa:ss. -/
theorem c1_colon_password_fails_login :
    pySplit ':' "user:pa:ss" = ["user", "pa", "ss"] ∧
    ecr_login c1env "123456789012" "us-east-1" =
      (.ok false, [.stInfo "Authenticating Docker with ECR...",
        .stError "An error occurred during ECR login: too many values to unpack (expected 2)"]) ∧
    invokesEngine (ecr_login c1env "123456789012" "us-east-1").2 "login" = false := by
  refine ⟨by decide, by decide, by decide⟩

/-- A push environment whose tag step succeeds and whose push process
emits one line and then exits with the given status. -/
def pushEnvWithExit (c : Int) : PushEnv where
  tagRun := .completed ⟨0, "", ""⟩
  pushSpawn := .ok ⟨["The push refers to repository\n"], c⟩

/-- Counterexample to claim C6: two push processes with different
non-zero exit codes produce identical results, so the exact exit code is
not preserved in anything surfaced to the caller — only the boolean
False is. -/
theorem c6_counterexample_exit_code_lost :
    pushEnvWithExit 1 ≠ pushEnvWithExit 2 ∧
    tag_and_push_image (pushEnvWithExit 1) "my-app:latest"
        "123456789012.dkr.ecr.us-east-1.amazonaws.com/my-app" "latest" =
      tag_and_push_image (pushEnvWithExit 2) "my-app:latest"
        "123456789012.dkr.ecr.us-east-1.amazonaws.com/my-app" "latest" ∧
    (tag_and_push_image (pushEnvWithExit 1) "my-app:latest"
        "123456789012.dkr.ecr.us-east-1.amazonaws.com/my-app" "latest").1 = .ok false := by
  refine ⟨by decide, by decide, by decide⟩

/-- Claim C6 as amended: when the push process exits non-zero after its
output is drained, tag_and_push_image returns the failure boolean False;
the exit code itself is consulted internally but not surfaced. -/
theorem c6_nonzero_exit_yields_false (env : PushEnv) (l u t : String)
    (p : PushProcess) (r : ProcResult)
    (htag : env.tagRun = .completed r) (hr : r.returncode = 0)
    (hp : env.pushSpawn = .ok p) (hc : p.returncode ≠ 0) :
    (tag_and_push_image env l u t).1 = .ok false := by
  simp [tag_and_push_image, runChecked, htag, hr, hp, hc]

/-- Witness for the amended C6 at exit code 1. -/
theorem c6_nonzero_exit_yields_false_witness :
    (tag_and_push_image (pushEnvWithExit 1) "my-app:latest"
      "123456789012.dkr.ecr.us-east-1.amazonaws.com/my-app" "latest").1 = .ok false :=
  c6_nonzero_exit_yields_false (pushEnvWithExit 1) "my-app:latest"
    "123456789012.dkr.ecr.us-east-1.amazonaws.com/my-app" "latest"
    ⟨["The push refers to repository\n"], 1⟩ ⟨0, "", ""⟩ rfl rfl rfl (by decide)

/-- A push environment in which spawning the docker binary itself fails,
as when docker is not installed: subprocess.run and Popen raise
FileNotFoundError. -/
def brokenEngineEnv : PushEnv where
  tagRun := .spawnError (.fileNotFoundError "No such file or directory: docker")
  pushSpawn := .error (.fileNotFoundError "No such file or directory: docker")

/-- Counterexample to claim C10: the tag step of tag_and_push_image
catches only CalledProcessError, so a spawn failure of the docker binary
escapes to the caller as an exception instead of being mapped to
False. -/
theorem c10_counterexample_spawn_failure_escapes :
    (tag_and_push_image brokenEngineEnv "my-app:latest"
        "123456789012.dkr.ecr.us-east-1.amazonaws.com/my-app" "latest").1 =
      .error (.fileNotFoundError "No such file or directory: docker") := by
  decide

/-- Claim C10 as amended: get_ecr_client, get_ecr_repositories and
ecr_login catch every exception internally and always return a value
(None or a boolean); only tag_and_push_image can let an exception
escape. -/
theorem c10_helpers_never_raise :
    (∀ o : Except PyExc EcrClient, ∃ v, (get_ecr_client o).1 = .ok v) ∧
    (∀ po : Except PyExc (List Page), ∃ v, (get_ecr_repositories po).1 = .ok v) ∧
    (∀ (env : LoginEnv) (acct region : String),
      ∃ b, (ecr_login env acct region).1 = .ok b) := by
  refine ⟨?_, ?_, ?_⟩
  · intro o
    match o with
    | .ok c => exact ⟨some c, rfl⟩
    | .error e => cases e <;> exact ⟨none, rfl⟩
  · intro po
    match po with
    | .ok pages => exact ⟨some (collectRepoNames pages []), rfl⟩
    | .error e => cases e <;> exact ⟨none, rfl⟩
  · intro env acct region
    cases hb : ecr_login_body env (registry_host acct region) with
    | mk res tr =>
      cases res with
      | ok b => exact ⟨b, by simp [ecr_login, hb]⟩
      | error e => exact ⟨false, by cases e <;> simp [ecr_login, hb]⟩

/-- Claim C2: when the docker tag subcommand exits non-zero,
tag_and_push_image returns False and its trace contains no docker push
invocation — the push process is never spawned. -/
theorem c2_tag_failure_aborts_before_push (env : PushEnv) (l u t out err : String)
    (c : Int) (htag : env.tagRun = .completed ⟨c, out, err⟩) (hc : c ≠ 0) :
    (tag_and_push_image env l u t).1 = .ok false ∧
    invokesEngine (tag_and_push_image env l u t).2 "push" = false := by
  simp [tag_and_push_image, runChecked, htag, hc, invokesEngine, isEngineSub]

/-- A push environment whose tag step exits 1 because the local image
does not exist. -/
def c2env : PushEnv where
  tagRun := .completed ⟨1, "", "Error response from daemon: no such image"⟩
  pushSpawn := .ok ⟨[], 0⟩

/-- Witness for C2 at a concrete failing tag step. -/
theorem c2_tag_failure_aborts_before_push_witness :
    c2env.tagRun = .completed ⟨1, "", "Error response from daemon: no such image"⟩ ∧
    (1 : Int) ≠ 0 ∧
    ((tag_and_push_image c2env "my-app:latest"
        "123456789012.dkr.ecr.us-east-1.amazonaws.com/my-app" "latest").1 = .ok false ∧
      invokesEngine (tag_and_push_image c2env "my-app:latest"
        "123456789012.dkr.ecr.us-east-1.amazonaws.com/my-app" "latest").2 "push" = false) :=
  ⟨rfl, by decide,
    c2_tag_failure_aborts_before_push c2env "my-app:latest"
      "123456789012.dkr.ecr.us-east-1.amazonaws.com/my-app" "latest" ""
      "Error response from daemon: no such image" 1 rfl (by decide)⟩

/-- Claim C3: when the docker login subcommand exits non-zero with some
stderr text, the Push to ECR handler shows that text verbatim with
st.code and never invokes the docker tag or docker push subcommands. -/
theorem c3_login_failure_reports_stderr_skips_publish
    (env : PushClickEnv) (selected_repo local_image new_image_tag account_id region : String)
    (h1 : selected_repo ≠ "") (h2 : local_image ≠ "") (h3 : new_image_tag ≠ "")
    (h4 : account_id ≠ "")
    (a : AuthData) (rest : List AuthData) (d u p out s : String) (c : Int)
    (hauth : env.loginEnv.authorizationData = .ok (a :: rest))
    (hdec : env.loginEnv.b64decode a.authorizationToken = .ok d)
    (hsplit : pySplit ':' d = [u, p])
    (hrun : env.loginEnv.dockerLoginRun u p (registry_host account_id region) =
      .completed ⟨c, out, s⟩)
    (hc : c ≠ 0) :
    Effect.stCode s ∈
      (push_button_handler env selected_repo local_image new_image_tag account_id region).2 ∧
    invokesEngine
      (push_button_handler env selected_repo local_image new_image_tag account_id region).2
      "tag" = false ∧
    invokesEngine
      (push_button_handler env selected_repo local_image new_image_tag account_id region).2
      "push" = false := by
  have hlogin : ecr_login env.loginEnv account_id region =
      (.ok false, [.stInfo "Authenticating Docker with ECR...",
        .runProc ["docker", "login", "--username", u, "--password", p,
          registry_host account_id region],
        .stError "Docker login failed.", .stCode s]) := by
    simp [ecr_login, ecr_login_body, hauth, hdec, hsplit, hrun, indexZero, unpackTwo,
      runChecked, hc]
  simp [push_button_handler, h1, h2, h3, h4, hlogin, invokesEngine, isEngineSub]

/-- A click environment whose docker login subcommand exits 1 with the
stderr text no basic auth credentials. -/
def c3env : PushClickEnv where
  loginEnv :=
    { authorizationData := .ok [⟨"QVdTOnNlY3JldA=="⟩]
      b64decode := fun t =>
        if t = "QVdTOnNlY3JldA==" then .ok "AWS:secret"
        else .error (.valueError "Invalid base64-encoded string")
      dockerLoginRun := fun _ _ _ => .completed ⟨1, "", "no basic auth credentials"⟩ }
  pushEnv :=
    { tagRun := .completed ⟨0, "", ""⟩
      pushSpawn := .ok ⟨[], 0⟩ }

/-- Witness for C3 at a concrete run whose login step fails with the
stderr text no basic auth credentials. -/
theorem c3_login_failure_reports_stderr_skips_publish_witness :
    ("my-app" ≠ ("" : String) ∧ "my-app:latest" ≠ ("" : String) ∧
      "latest" ≠ ("" : String) ∧ "123456789012" ≠ ("" : String)) ∧
    c3env.loginEnv.authorizationData = .ok [⟨"QVdTOnNlY3JldA=="⟩] ∧
    c3env.loginEnv.b64decode "QVdTOnNlY3JldA==" = .ok "AWS:secret" ∧
    pySplit ':' "AWS:secret" = ["AWS", "secret"] ∧
    c3env.loginEnv.dockerLoginRun "AWS" "secret"
      (registry_host "123456789012" "us-east-1") =
      .completed ⟨1, "", "no basic auth credentials"⟩ ∧
    (1 : Int) ≠ 0 ∧
    (Effect.stCode "no basic auth credentials" ∈
      (push_button_handler c3env "my-app" "my-app:latest" "latest" "123456789012"
        "us-east-1").2 ∧
    invokesEngine
      (push_button_handler c3env "my-app" "my-app:latest" "latest" "123456789012"
        "us-east-1").2 "tag" = false ∧
    invokesEngine
      (push_button_handler c3env "my-app" "my-app:latest" "latest" "123456789012"
        "us-east-1").2 "push" = false) :=
  ⟨⟨by decide, by decide, by decide, by decide⟩, rfl, by decide, by decide, rfl, by decide,
    c3_login_failure_reports_stderr_skips_publish c3env "my-app" "my-app:latest" "latest"
      "123456789012" "us-east-1" (by decide) (by decide) (by decide) (by decide)
      ⟨"QVdTOnNlY3JldA=="⟩ [] "AWS:secret" "AWS" "secret" "" "no basic auth credentials" 1
      rfl (by decide) (by decide) rfl (by decide)⟩

theorem tag_command_mem (env : PushEnv) (l u t : String) :
    Effect.runProc ["docker", "tag", l, u ++ ":" ++ t] ∈ (tag_and_push_image env l u t).2 := by
  unfold tag_and_push_image
  cases htag : runChecked env.tagRun with
  | error e => cases e <;> simp
  | ok r =>
    cases hp : env.pushSpawn with
    | error e => simp
    | ok proc => by_cases hr : proc.returncode = 0 <;> simp [hr]

/-- Claim C5: whenever the Push to ECR handler reaches the publish
stage, the remote image reference it passes to the docker tag
subcommand is exactly the accountId.dkr.ecr.region.amazonaws.com/repo
URI with the chosen tag appended, and at the concrete spec example the
produced URI is 123456789012.dkr.ecr.us-east-1.amazonaws.com/my-app. -/
theorem c5_remote_uri_format
    (env : PushClickEnv) (selected_repo local_image new_image_tag account_id region : String)
    (h1 : selected_repo ≠ "") (h2 : local_image ≠ "") (h3 : new_image_tag ≠ "")
    (h4 : account_id ≠ "")
    (a : AuthData) (rest : List AuthData) (d u p out s : String)
    (hauth : env.loginEnv.authorizationData = .ok (a :: rest))
    (hdec : env.loginEnv.b64decode a.authorizationToken = .ok d)
    (hsplit : pySplit ':' d = [u, p])
    (hrun : env.loginEnv.dockerLoginRun u p (registry_host account_id region) =
      .completed ⟨0, out, s⟩) :
    Effect.runProc ["docker", "tag", pyStrip local_image,
      account_id ++ ".dkr.ecr." ++ region ++ ".amazonaws.com/" ++ selected_repo ++ ":" ++
        pyStrip new_image_tag] ∈
      (push_button_handler env selected_repo local_image new_image_tag account_id region).2 ∧
    repository_uri "123456789012" "us-east-1" "my-app" =
      "123456789012.dkr.ecr.us-east-1.amazonaws.com/my-app" := by
  have hlogin : ecr_login env.loginEnv account_id region =
      (.ok true, [.stInfo "Authenticating Docker with ECR...",
        .runProc ["docker", "login", "--username", u, "--password", p,
          registry_host account_id region],
        .stSuccess "Docker login successful!"]) := by
    simp [ecr_login, ecr_login_body, hauth, hdec, hsplit, hrun, indexZero, unpackTwo,
      runChecked]
  constructor
  · have hmem := tag_command_mem env.pushEnv (pyStrip local_image)
      (repository_uri account_id region selected_repo) (pyStrip new_image_tag)
    simp only [repository_uri] at hmem
    simp [push_button_handler, hlogin, h1, h2, h3, h4, repository_uri]
    tauto
  · decide

/-- A click environment whose login succeeds, whose tag step succeeds
and whose push process emits one line and exits 0. -/
def c5env : PushClickEnv where
  loginEnv :=
    { authorizationData := .ok [⟨"QVdTOnNlY3JldA=="⟩]
      b64decode := fun t =>
        if t = "QVdTOnNlY3JldA==" then .ok "AWS:secret"
        else .error (.valueError "Invalid base64-encoded string")
      dockerLoginRun := fun _ _ _ => .completed ⟨0, "Login Succeeded", ""⟩ }
  pushEnv :=
    { tagRun := .completed ⟨0, "", ""⟩
      pushSpawn := .ok ⟨["latest: digest: sha256 size: 1234\n"], 0⟩ }

/-- Witness for C5 at the concrete end-to-end example of the spec. -/
theorem c5_remote_uri_format_witness :
    ("my-app" ≠ ("" : String) ∧ "my-app:latest" ≠ ("" : String) ∧
      "latest" ≠ ("" : String) ∧ "123456789012" ≠ ("" : String)) ∧
    c5env.loginEnv.authorizationData = .ok [⟨"QVdTOnNlY3JldA=="⟩] ∧
    c5env.loginEnv.b64decode "QVdTOnNlY3JldA==" = .ok "AWS:secret" ∧
    pySplit ':' "AWS:secret" = ["AWS", "secret"] ∧
    c5env.loginEnv.dockerLoginRun "AWS" "secret"
      (registry_host "123456789012" "us-east-1") = .completed ⟨0, "Login Succeeded", ""⟩ ∧
    (Effect.runProc ["docker", "tag", pyStrip "my-app:latest",
      "123456789012" ++ ".dkr.ecr." ++ "us-east-1" ++ ".amazonaws.com/" ++ "my-app" ++ ":" ++
        pyStrip "latest"] ∈
      (push_button_handler c5env "my-app" "my-app:latest" "latest" "123456789012"
        "us-east-1").2 ∧
    repository_uri "123456789012" "us-east-1" "my-app" =
      "123456789012.dkr.ecr.us-east-1.amazonaws.com/my-app") :=
  ⟨⟨by decide, by decide, by decide, by decide⟩, rfl, by decide, by decide, rfl,
    c5_remote_uri_format c5env "my-app" "my-app:latest" "latest" "123456789012" "us-east-1"
      (by decide) (by decide) (by decide) (by decide)
      ⟨"QVdTOnNlY3JldA=="⟩ [] "AWS:secret" "AWS" "secret" "Login Succeeded" ""
      rfl (by decide) (by decide) rfl⟩
